import Mathlib

/-!
Verification development for the memory-monitor repository (Node.js host
resource monitor).  The definitions below are a shallow embedding of the
sampling-and-alerting core: the metric readers of systemUtils.js, the
threshold checks, rate limiter and retry loop of the monitoring loop in
app.js, the Prometheus gauge update, the sink fan-out of one tick, and the
sqlite persistence backend of database.js.  JavaScript numbers are modelled
as rationals, thrown exceptions from an external collaborator as an Option
argument (none means the call threw), and per-tick time as an integer count
of seconds.
-/

namespace MemMonitor

/-- JavaScript Math.round: round half toward positive infinity,
that is floor of the argument plus one half. -/
def jsRound (q : ℚ) : ℚ := ((⌊q + 1/2⌋ : ℤ) : ℚ)

/-- The six resource kinds monitored by the loop. -/
inductive Kind
  | ram
  | cpu
  | disk
  | swap
  | load
  | network
deriving DecidableEq

/-- The configuration values the core reads (config/default.json keys).
The two Present flags record whether the optional collaborator objects
(db, prometheus) are non-null, which the code tests alongside the enabled
flags. -/
structure Config where
  monitoringThreshold : ℚ
  checkInterval : ℤ
  cpuMonitor : Bool
  cpuThreshold : ℚ
  diskMonitor : Bool
  diskThreshold : ℚ
  swapMonitor : Bool
  swapThreshold : ℚ
  loadMonitor : Bool
  loadThreshold : ℚ
  networkMonitor : Bool
  networkThreshold : ℚ
  databaseEnabled : Bool
  dbPresent : Bool
  prometheusEnabled : Bool
  promPresent : Bool

/-- Result of one si.mem() call: used, total, swapused, swaptotal. -/
structure MemSample where
  used : ℚ
  total : ℚ
  swapused : ℚ
  swaptotal : ℚ

/-- One si.networkStats() sample: cumulative byte counters. -/
structure NetSample where
  rx_bytes : ℚ
  tx_bytes : ℚ

/-- Behaviour of the underlying metric source during one tick.  Each field
is the value the corresponding systeminformation call would produce; none
means the call threw.  checkRamUsage and checkSwapUsage each call si.mem()
independently, hence two separate fields.  The network reader takes two
samples one second apart; a single Option covers a throw at either sample. -/
structure SourceState where
  memRam : Option MemSample
  cpuLoad : Option ℚ
  diskUse : Option ℚ
  memSwap : Option MemSample
  loadAvg : Option (ℚ × ℕ)
  net : Option (NetSample × NetSample)

/-- systemUtils.js checkRamUsage: Math.round(used / total * 100), or 0 if
si.mem() threw. -/
def checkRamUsage (src : Option MemSample) : ℚ :=
  match src with
  | some m => jsRound (m.used / m.total * 100)
  | none => 0

/-- systemUtils.js checkCpuUsage: 0 when cpu.monitor is false, otherwise
Math.round(currentLoad), or 0 if si.currentLoad() threw. -/
def checkCpuUsage (cfg : Config) (src : Option ℚ) : ℚ :=
  if !cfg.cpuMonitor then 0
  else
    match src with
    | some l => jsRound l
    | none => 0

/-- systemUtils.js checkDiskUsage: 0 when disk.monitor is false, otherwise
Math.round(diskInfo.use), or 0 on a throw. -/
def checkDiskUsage (cfg : Config) (src : Option ℚ) : ℚ :=
  if !cfg.diskMonitor then 0
  else
    match src with
    | some u => jsRound u
    | none => 0

/-- systemUtils.js checkSwapUsage: 0 when swap.monitor is false; 0 when
swaptotal is 0; otherwise Math.round(swapused / swaptotal * 100); 0 on a
throw. -/
def checkSwapUsage (cfg : Config) (src : Option MemSample) : ℚ :=
  if !cfg.swapMonitor then 0
  else
    match src with
    | some m => if m.swaptotal = 0 then 0 else jsRound (m.swapused / m.swaptotal * 100)
    | none => 0

/-- systemUtils.js checkLoadAverage: 0 when load.monitor is false, otherwise
Math.round(loadavg[0] / cpuCount * 100); 0 on a throw. -/
def checkLoadAverage (cfg : Config) (src : Option (ℚ × ℕ)) : ℚ :=
  if !cfg.loadMonitor then 0
  else
    match src with
    | some p => jsRound (p.1 / (p.2 : ℚ) * 100)
    | none => 0

/-- systemUtils.js checkNetworkUsage: (0, 0) when network.monitor is false
or either sample threw; otherwise each rate is
(second counter - first counter) * 8 / 1024 / 1024, in Mbps. -/
def checkNetworkUsage (cfg : Config) (src : Option (NetSample × NetSample)) : ℚ × ℚ :=
  if !cfg.networkMonitor then (0, 0)
  else
    match src with
    | some p =>
        (((p.2.rx_bytes - p.1.rx_bytes) * 8) / 1024 / 1024,
         ((p.2.tx_bytes - p.1.tx_bytes) * 8) / 1024 / 1024)
    | none => (0, 0)

/-- The metrics snapshot assembled once per tick in runMonitoring:
all six keys are always present. -/
structure Metrics where
  ram : ℚ
  cpu : ℚ
  disk : ℚ
  swap : ℚ
  load : ℚ
  network : ℚ × ℚ

/-- The metrics object assembled at the top of each tick of runMonitoring. -/
def collectMetrics (cfg : Config) (src : SourceState) : Metrics :=
  { ram := checkRamUsage src.memRam
    cpu := checkCpuUsage cfg src.cpuLoad
    disk := checkDiskUsage cfg src.diskUse
    swap := checkSwapUsage cfg src.memSwap
    load := checkLoadAverage cfg src.loadAvg
    network := checkNetworkUsage cfg src.net }

/-- The per-kind lastAlertTimes map of app.js, initialised to 0 at startup
and mutated only when a Telegram send succeeds. -/
structure AlertState where
  lastAlertTimes : Kind → ℤ

/-- The startup value of lastAlertTimes: every kind maps to 0. -/
def initAlertState : AlertState := ⟨fun _ => 0⟩

/-- One row handed to storeAlert: alert type, formatted usage value, and
whether the Telegram send succeeded.  The timestamp, hostname and message
columns do not bear on any claim and are captured by the value string. -/
structure AlertRecord where
  kind : Kind
  value : String
  sentSuccessfully : Bool
deriving DecidableEq

/-- Result of the while retry loop inside sendTelegramAlert: whether a send
succeeded, how many bot.sendMessage attempts were made, and how many
2000 millisecond setTimeout waits were performed (one after each failed
attempt). -/
structure LoopResult where
  success : Bool
  attempts : ℕ
  sleeps : ℕ
deriving DecidableEq

/-- The while (retry < maxRetries AND NOT success) loop of sendTelegramAlert.
The list holds the indices of the attempts still permitted, in order; with
maxRetries = 3 the loop runs it on [0, 1, 2].  o i tells whether attempt i
of bot.sendMessage succeeds.  A failed attempt increments retry and performs
one 2 second wait before the loop condition is rechecked. -/
def sendLoop (o : ℕ → Bool) : List ℕ → LoopResult
  | [] => ⟨false, 0, 0⟩
  | i :: rest =>
    if o i then ⟨true, 1, 0⟩
    else
      let r := sendLoop o rest
      ⟨r.success, r.attempts + 1, r.sleeps + 1⟩

/-- Everything observable about one sendTelegramAlert call: the boolean it
returns, the number of delivery attempts, the number of 2 second waits, the
AlertRecord rows offered to storeAlert, whether a Prometheus alert counter
was incremented, and the alert state afterwards. -/
structure SendResult where
  ok : Bool
  attempts : ℕ
  sleeps : ℕ
  records : List AlertRecord
  counterInc : Bool
  state : AlertState

/-- app.js sendTelegramAlert.  now is Math.floor(Date.now() / 1000) sampled
at the start of the call; the rate limit window is checkInterval * 10.
fmtThrows models getSystemInfo or formatAlert throwing inside the outer try,
in which case the catch returns false before any delivery attempt.  On the
first successful attempt the loop stops, lastAlertTimes for the kind is set
to now, the Prometheus counter is incremented when prometheus is non-null
and enabled, and a successful AlertRecord is stored when db is non-null and
enabled.  If all three attempts fail, one failed AlertRecord is stored (under
the same db guard), false is returned, and lastAlertTimes is left unchanged. -/
def sendTelegramAlert (cfg : Config) (st : AlertState) (k : Kind) (v : String)
    (now : ℤ) (o : ℕ → Bool) (fmtThrows : Bool) : SendResult :=
  if now - st.lastAlertTimes k < cfg.checkInterval * 10 then
    { ok := false, attempts := 0, sleeps := 0, records := [], counterInc := false, state := st }
  else if fmtThrows then
    { ok := false, attempts := 0, sleeps := 0, records := [], counterInc := false, state := st }
  else if (sendLoop o [0, 1, 2]).success then
    { ok := true
      attempts := (sendLoop o [0, 1, 2]).attempts
      sleeps := (sendLoop o [0, 1, 2]).sleeps
      records := if cfg.dbPresent && cfg.databaseEnabled then [⟨k, v, true⟩] else []
      counterInc := cfg.promPresent && cfg.prometheusEnabled
      state := ⟨fun j => if j = k then now else st.lastAlertTimes j⟩ }
  else
    { ok := false
      attempts := (sendLoop o [0, 1, 2]).attempts
      sleeps := (sendLoop o [0, 1, 2]).sleeps
      records := if cfg.dbPresent && cfg.databaseEnabled then [⟨k, v, false⟩] else []
      counterInc := false
      state := st }

/-- The threshold-check section of one tick of runMonitoring: the kinds for
which sendTelegramAlert is invoked, in source order.  RAM is always checked
against monitoring.threshold; Swap additionally requires a strictly positive
reading; Network fires when either rate meets the shared threshold. -/
def alertsAttempted (cfg : Config) (m : Metrics) : List Kind :=
  (if cfg.monitoringThreshold ≤ m.ram then [Kind.ram] else []) ++
  (if cfg.cpuMonitor = true ∧ cfg.cpuThreshold ≤ m.cpu then [Kind.cpu] else []) ++
  (if cfg.diskMonitor = true ∧ cfg.diskThreshold ≤ m.disk then [Kind.disk] else []) ++
  (if cfg.swapMonitor = true ∧ cfg.swapThreshold ≤ m.swap ∧ 0 < m.swap then [Kind.swap] else []) ++
  (if cfg.loadMonitor = true ∧ cfg.loadThreshold ≤ m.load then [Kind.load] else []) ++
  (if cfg.networkMonitor = true ∧
      (cfg.networkThreshold ≤ m.network.1 ∨ cfg.networkThreshold ≤ m.network.2) then
    [Kind.network] else [])

/-- The fixed evaluation order of the threshold checks in runMonitoring. -/
def kindOrder : List Kind := [Kind.ram, Kind.cpu, Kind.disk, Kind.swap, Kind.load, Kind.network]

/-- Breach predicate in the wording of the specification, amended with the
extra condition the code imposes on Swap: the reading must be strictly
positive. -/
def breachesAmended (cfg : Config) (m : Metrics) : Kind → Bool
  | Kind.ram => decide (cfg.monitoringThreshold ≤ m.ram)
  | Kind.cpu => cfg.cpuMonitor && decide (cfg.cpuThreshold ≤ m.cpu)
  | Kind.disk => cfg.diskMonitor && decide (cfg.diskThreshold ≤ m.disk)
  | Kind.swap => cfg.swapMonitor && decide (cfg.swapThreshold ≤ m.swap) && decide (0 < m.swap)
  | Kind.load => cfg.loadMonitor && decide (cfg.loadThreshold ≤ m.load)
  | Kind.network =>
      cfg.networkMonitor &&
        (decide (cfg.networkThreshold ≤ m.network.1) || decide (cfg.networkThreshold ≤ m.network.2))

lemma ite_singleton_append (A : Prop) [Decidable A] (k : Kind) (t : List Kind) :
    (if A then [k] else []) ++ t = if A then k :: t else t := by
  split <;> simp

lemma alertsAttempted_eq_filter (cfg : Config) (m : Metrics) :
    alertsAttempted cfg m = kindOrder.filter (breachesAmended cfg m) := by
  unfold alertsAttempted kindOrder
  simp only [List.append_assoc, ite_singleton_append]
  simp only [List.filter_cons, List.filter_nil, breachesAmended, Bool.and_eq_true,
    Bool.or_eq_true, decide_eq_true_eq, and_assoc]
  split_ifs <;> simp_all

/-- The metrics argument as updatePrometheusMetrics sees it: each field may
be absent (undefined in JavaScript), in which case the code substitutes 0
via the OR-zero idiom; the network field is used only when it is a
two-element array. -/
structure PromMetricsIn where
  ram : Option ℚ
  cpu : Option ℚ
  disk : Option ℚ
  swap : Option ℚ
  load : Option ℚ
  network : Option (ℚ × ℚ)

/-- The JavaScript idiom value OR 0 applied to a possibly absent reading. -/
def jsOrZero (o : Option ℚ) : ℚ := o.getD 0

/-- The metrics snapshot of a tick viewed as the argument of
updatePrometheusMetrics: every field present. -/
def toPromInput (m : Metrics) : PromMetricsIn :=
  ⟨some m.ram, some m.cpu, some m.disk, some m.swap, some m.load, some m.network⟩

/-- app.js updatePrometheusMetrics: returns false doing nothing when
prometheus is null or disabled; otherwise sets each resource gauge to its
reading OR 0, sets the two network gauges when the network field is a pair,
and returns true.  setThrows models a gauge update throwing, in which case
the catch returns false.  The second component lists the (gauge name, value)
set events. -/
def updatePrometheusMetrics (cfg : Config) (pin : PromMetricsIn) (setThrows : Bool) :
    Bool × List (String × ℚ) :=
  if !(cfg.promPresent && cfg.prometheusEnabled) then (false, [])
  else if setThrows then (false, [])
  else
    (true,
      [("system_ram_usage_percent", jsOrZero pin.ram),
       ("system_cpu_usage_percent", jsOrZero pin.cpu),
       ("system_disk_usage_percent", jsOrZero pin.disk),
       ("system_swap_usage_percent", jsOrZero pin.swap),
       ("system_load_average_per_core", jsOrZero pin.load)] ++
      (match pin.network with
       | some p => [("system_network_rx_mbps", p.1), ("system_network_tx_mbps", p.2)]
       | none => []))

/-- Failure injection for the three sink actions of one tick: whether
db.storeMetrics throws, whether a Prometheus gauge set throws, and whether
fs.writeFileSync of the status file throws. -/
structure SinkFailures where
  dbThrows : Bool
  promThrows : Bool
  statusThrows : Bool

/-- app.js storeMetrics: returns false when db is null or disabled; on a
throw from db.storeMetrics the catch logs and returns false; otherwise
true. -/
def storeMetricsAction (cfg : Config) (dbThrows : Bool) : Bool :=
  if !(cfg.dbPresent && cfg.databaseEnabled) then false
  else if dbThrows then false
  else true

/-- app.js updateStatusFile: the catch around fs.writeFileSync swallows a
throw; the Bool records whether the write succeeded. -/
def updateStatusFileAction (statusThrows : Bool) : Bool :=
  if statusThrows then false else true

/-- Everything observable about the snapshot-and-sink part of one tick plus
the list of alert dispatches it goes on to attempt. -/
structure TickResult where
  metrics : Metrics
  storedOk : Option Bool
  promOk : Option Bool
  gaugeEvents : List (String × ℚ)
  statusOk : Bool
  alerts : List Kind

/-- One tick of runMonitoring up to and including the threshold checks:
collect the snapshot, then run the three failure-isolated sink actions
(storeMetrics only when database.enabled, updatePrometheusMetrics only when
prometheus.enabled, updateStatusFile always), then determine which alert
dispatches are attempted.  storedOk and promOk are none when the
corresponding guard at the tick level skips the call. -/
def runTick (cfg : Config) (src : SourceState) (sink : SinkFailures) : TickResult :=
  { metrics := collectMetrics cfg src
    storedOk :=
      if cfg.databaseEnabled then some (storeMetricsAction cfg sink.dbThrows) else none
    promOk :=
      if cfg.prometheusEnabled then
        some (updatePrometheusMetrics cfg (toPromInput (collectMetrics cfg src)) sink.promThrows).1
      else none
    gaugeEvents :=
      if cfg.prometheusEnabled then
        (updatePrometheusMetrics cfg (toPromInput (collectMetrics cfg src)) sink.promThrows).2
      else []
    statusOk := updateStatusFileAction sink.statusThrows
    alerts := alertsAttempted cfg (collectMetrics cfg src) }

/-- One row of the sqlite metrics table. -/
structure MetricRow where
  id : ℕ
  timestamp : String
  hostname : String
  ipAddress : String
  ramUsage : ℚ
  cpuUsage : ℚ
  diskUsage : ℚ
  swapUsage : ℚ
  loadAverage : ℚ
  networkRx : ℚ
  networkTx : ℚ
  extraData : Option String
deriving DecidableEq

/-- One row of the sqlite alerts table. -/
structure AlertRow where
  id : ℕ
  timestamp : String
  hostname : String
  alertType : String
  value : String
  message : String
  sentSuccessfully : Bool
deriving DecidableEq

/-- The sqlite metrics table: rows in insertion order plus the next
autoincrement identifier. -/
structure MetricsTable where
  rows : List MetricRow
  nextId : ℕ
deriving DecidableEq

/-- The sqlite alerts table. -/
structure AlertsTable where
  rows : List AlertRow
  nextId : ℕ
deriving DecidableEq

/-- database.js sqlite storeMetrics: INSERT appends one row, the storage
assigning the identifier. -/
def storeMetricsRow (t : MetricsTable) (ts hn ip : String)
    (ram cpu disk swap load rx tx : ℚ) (extra : Option String) : MetricsTable :=
  { rows := t.rows ++ [⟨t.nextId, ts, hn, ip, ram, cpu, disk, swap, load, rx, tx, extra⟩]
    nextId := t.nextId + 1 }

/-- database.js sqlite storeAlert: INSERT appends one row. -/
def storeAlertRow (t : AlertsTable) (ts hn atype v msg : String) (ok : Bool) : AlertsTable :=
  { rows := t.rows ++ [⟨t.nextId, ts, hn, atype, v, msg, ok⟩]
    nextId := t.nextId + 1 }

/-- Insert one element into a list already sorted by descending timestamp
key, keeping the descending order. -/
def insertDescBy {α : Type} (ts : α → List Char) (r : α) : List α → List α
  | [] => [r]
  | x :: xs => if ts x < ts r then r :: x :: xs else x :: insertDescBy ts r xs

/-- Sort a list by descending timestamp key, as ORDER BY timestamp DESC
does over the TEXT column.  SQLite leaves the order of equal timestamps
unspecified; every theorem below is stated so as not to depend on the tie
order this sort happens to pick. -/
def sortDescBy {α : Type} (ts : α → List Char) : List α → List α
  | [] => []
  | x :: xs => insertDescBy ts x (sortDescBy ts xs)

/-- database.js sqlite getRecentMetrics: SELECT * ORDER BY timestamp DESC
LIMIT limit. -/
def getRecentMetrics (t : MetricsTable) (limit : ℕ) : List MetricRow :=
  (sortDescBy (fun r => r.timestamp.data) t.rows).take limit

/-- database.js sqlite getRecentAlerts: SELECT * ORDER BY timestamp DESC
LIMIT limit. -/
def getRecentAlerts (t : AlertsTable) (limit : ℕ) : List AlertRow :=
  (sortDescBy (fun r => r.timestamp.data) t.rows).take limit

lemma mem_insertDescBy {α : Type} (ts : α → List Char) (r : α) (l : List α) (y : α) :
    y ∈ insertDescBy ts r l ↔ y = r ∨ y ∈ l := by
  induction l with
  | nil => simp [insertDescBy]
  | cons x xs ih =>
    by_cases h : ts x < ts r
    · simp [insertDescBy, h]
    · simp only [insertDescBy, if_neg h, List.mem_cons, ih]
      tauto

lemma pairwise_insertDescBy {α : Type} (ts : α → List Char) (r : α) (l : List α)
    (h : l.Pairwise (fun a b => ts b ≤ ts a)) :
    (insertDescBy ts r l).Pairwise (fun a b => ts b ≤ ts a) := by
  induction l with
  | nil => simp [insertDescBy]
  | cons x xs ih =>
    rcases List.pairwise_cons.mp h with ⟨hx, hxs⟩
    by_cases hlt : ts x < ts r
    · simp only [insertDescBy, if_pos hlt]
      refine List.pairwise_cons.mpr ⟨?_, h⟩
      intro y hy
      rcases List.mem_cons.mp hy with rfl | hy2
      · exact le_of_lt hlt
      · exact le_trans (hx y hy2) (le_of_lt hlt)
    · simp only [insertDescBy, if_neg hlt]
      refine List.pairwise_cons.mpr ⟨?_, ih hxs⟩
      intro y hy
      rcases (mem_insertDescBy ts r xs y).mp hy with rfl | hy2
      · exact not_lt.mp hlt
      · exact hx y hy2

lemma pairwise_sortDescBy {α : Type} (ts : α → List Char) (l : List α) :
    (sortDescBy ts l).Pairwise (fun a b => ts b ≤ ts a) := by
  induction l with
  | nil => simp [sortDescBy]
  | cons x xs ih => exact pairwise_insertDescBy ts x (sortDescBy ts xs) ih

lemma sortDescBy_append_singleton {α : Type} (ts : α → List Char) (r : α) (l : List α)
    (h : ∀ x ∈ l, ts x < ts r) :
    sortDescBy ts (l ++ [r]) = r :: sortDescBy ts l := by
  induction l with
  | nil => simp [sortDescBy, insertDescBy]
  | cons x xs ih =>
    have hx : ts x < ts r := h x (List.mem_cons_self x xs)
    have hrec : sortDescBy ts (xs ++ [r]) = r :: sortDescBy ts xs :=
      ih (fun y hy => h y (List.mem_cons_of_mem x hy))
    have hnot : ¬ ts r < ts x := not_lt.mpr (le_of_lt hx)
    calc sortDescBy ts (x :: (xs ++ [r]))
        = insertDescBy ts x (sortDescBy ts (xs ++ [r])) := rfl
      _ = insertDescBy ts x (r :: sortDescBy ts xs) := by rw [hrec]
      _ = r :: insertDescBy ts x (sortDescBy ts xs) := by
          simp [insertDescBy, hnot]
      _ = r :: sortDescBy ts (x :: xs) := rfl

lemma sendLoop_spec (o : ℕ → Bool) :
    sendLoop o [0, 1, 2] =
      if o 0 then ⟨true, 1, 0⟩
      else if o 1 then ⟨true, 2, 1⟩
      else if o 2 then ⟨true, 3, 2⟩
      else ⟨false, 3, 3⟩ := by
  cases h0 : o 0 <;> cases h1 : o 1 <;> cases h2 : o 2 <;>
    simp [sendLoop, h0, h1, h2]

/-- The configuration shipped in the README defaults: every monitor on,
database and prometheus enabled and their objects present. -/
def cfgW : Config :=
  { monitoringThreshold := 80
    checkInterval := 60
    cpuMonitor := true
    cpuThreshold := 90
    diskMonitor := true
    diskThreshold := 90
    swapMonitor := true
    swapThreshold := 80
    loadMonitor := true
    loadThreshold := 5
    networkMonitor := true
    networkThreshold := 90
    databaseEnabled := true
    dbPresent := true
    prometheusEnabled := true
    promPresent := true }

/-- Default configuration with the swap threshold lowered to 0. -/
def cfgSwapZero : Config := { cfgW with swapThreshold := 0 }

/-- Default configuration with the swap threshold lowered to 40. -/
def cfgSwapForty : Config := { cfgW with swapThreshold := 40 }

/-- Default configuration with CPU monitoring turned off. -/
def cfgCpuOff : Config := { cfgW with cpuMonitor := false }

/-- A snapshot with every reading zero. -/
def mZero : Metrics := ⟨0, 0, 0, 0, 0, (0, 0)⟩

/-- A snapshot whose only nonzero reading is swap at 50 percent. -/
def mSwapFifty : Metrics := ⟨0, 0, 0, 50, 0, (0, 0)⟩

/-- A tick in which every underlying metric call throws. -/
def srcNone : SourceState := ⟨none, none, none, none, none, none⟩

/-- First network sample of the C7 scenario. -/
def netSampleA : NetSample := ⟨1000000, 0⟩

/-- Second network sample of the C7 scenario. -/
def netSampleB : NetSample := ⟨2048000, 0⟩

/-- C1 fails as stated: with swap monitoring enabled, a swap threshold of 0
and a swap reading of 0, the kind is enabled and its reading meets the
threshold, yet no Swap dispatch is attempted, because the code additionally
requires a strictly positive swap reading. -/
theorem C1_counterexample :
    (cfgSwapZero.swapMonitor = true ∧ cfgSwapZero.swapThreshold ≤ mZero.swap) ∧
    Kind.swap ∉ alertsAttempted cfgSwapZero mZero := by
  decide

/-- C1 amended: in every tick the dispatches are attempted exactly for the
kinds whose breach predicate holds (enabled and reading at or above the
threshold, RAM always monitored against the global threshold, Network when
either rate meets the shared threshold, and Swap additionally requiring a
strictly positive reading), in the fixed order RAM, CPU, Disk, Swap, Load,
Network. -/
theorem C1_dispatch_order_and_condition (cfg : Config) (m : Metrics) :
    alertsAttempted cfg m = kindOrder.filter (breachesAmended cfg m) ∧
    (∀ k : Kind, k ∈ alertsAttempted cfg m ↔ breachesAmended cfg m k = true) := by
  refine ⟨alertsAttempted_eq_filter cfg m, ?_⟩
  intro k
  rw [alertsAttempted_eq_filter, List.mem_filter]
  constructor
  · exact fun h => h.2
  · intro h
    exact ⟨by cases k <;> decide, h⟩

/-- C9: a Swap dispatch is attempted only when the swap reading is strictly
positive; in particular a tick with a swap reading of 0 attempts no Swap
alert even when swap monitoring is enabled and the threshold is 0. -/
theorem C9_swap_alert_requires_positive (cfg : Config) (m : Metrics) :
    (Kind.swap ∈ alertsAttempted cfg m → 0 < m.swap) ∧
    (m.swap = 0 → Kind.swap ∉ alertsAttempted cfg m) := by
  have heq := alertsAttempted_eq_filter cfg m
  constructor
  · intro hmem
    rw [heq, List.mem_filter] at hmem
    have hb := hmem.2
    simp only [breachesAmended, Bool.and_eq_true, decide_eq_true_eq] at hb
    exact hb.2
  · intro h0 hmem
    rw [heq, List.mem_filter] at hmem
    have hb := hmem.2
    simp [breachesAmended, h0] at hb

/-- Witness for C9 at a concrete tick in which a Swap dispatch is
attempted. -/
theorem C9_witness : (0 : ℚ) < mSwapFifty.swap :=
  (C9_swap_alert_requires_positive cfgSwapForty mSwapFifty).1 (by decide)

/-- C6: the three sink actions of a tick and its threshold checks are
failure-isolated: the attempted alerts and the snapshot do not depend on any
sink failure, and the outcome of each sink action depends only on its own
failure flag. -/
theorem C6_sink_failure_isolation (cfg : Config) (src : SourceState) (f g : SinkFailures) :
    (runTick cfg src f).alerts = (runTick cfg src g).alerts ∧
    (runTick cfg src f).metrics = (runTick cfg src g).metrics ∧
    (runTick cfg src f).storedOk
      = (runTick cfg src ⟨f.dbThrows, g.promThrows, g.statusThrows⟩).storedOk ∧
    (runTick cfg src f).promOk
      = (runTick cfg src ⟨g.dbThrows, f.promThrows, g.statusThrows⟩).promOk ∧
    (runTick cfg src f).statusOk
      = (runTick cfg src ⟨g.dbThrows, g.promThrows, f.statusThrows⟩).statusOk :=
  ⟨rfl, rfl, rfl, rfl, rfl⟩

/-- C7: the network reader computes each rate as the counter difference
times 8 divided by 1024 and again by 1024; at rx1 = 1000000 bytes and
rx2 = 2048000 bytes the Rx rate is 8384000 / 1048576 Mbps, strictly below
8, and in particular not 8.384 (the divisor is 1024 * 1024, not 10^6). -/
theorem C7_network_rate_formula (cfg : Config) (s1 s2 : NetSample)
    (hm : cfg.networkMonitor = true) :
    checkNetworkUsage cfg (some (s1, s2)) =
      (((s2.rx_bytes - s1.rx_bytes) * 8) / 1024 / 1024,
       ((s2.tx_bytes - s1.tx_bytes) * 8) / 1024 / 1024) ∧
    (s1.rx_bytes = 1000000 → s2.rx_bytes = 2048000 →
      (checkNetworkUsage cfg (some (s1, s2))).1 = 8384000 / 1048576 ∧
      (checkNetworkUsage cfg (some (s1, s2))).1 < 8 ∧
      (checkNetworkUsage cfg (some (s1, s2))).1 ≠ 8384 / 1000) := by
  constructor
  · simp [checkNetworkUsage, hm]
  · intro h1 h2
    refine ⟨?_, ?_, ?_⟩ <;> norm_num [checkNetworkUsage, hm, h1, h2]

/-- Witness for C7 at the concrete samples of the scenario. -/
theorem C7_witness :
    (checkNetworkUsage cfgW (some (netSampleA, netSampleB))).1 = 8384000 / 1048576 ∧
    (checkNetworkUsage cfgW (some (netSampleA, netSampleB))).1 < 8 := by
  have h := (C7_network_rate_formula cfgW netSampleA netSampleB rfl).2 rfl rfl
  exact ⟨h.1, h.2.1⟩

/-- C10: when the Prometheus registry object is present and enabled and no
gauge update throws, every tick sets every per-resource gauge to exactly the
reading of the snapshot (plus the two network gauges); a reading absent from
the metrics object is substituted by 0; and since a disabled resource reads
0, its gauge is set to 0 on every tick rather than left untouched. -/
theorem C10_prometheus_gauges (cfg : Config) (src : SourceState) (dbf stf : Bool)
    (hp : cfg.promPresent = true) (he : cfg.prometheusEnabled = true) :
    (runTick cfg src ⟨dbf, false, stf⟩).gaugeEvents =
      [("system_ram_usage_percent", (collectMetrics cfg src).ram),
       ("system_cpu_usage_percent", (collectMetrics cfg src).cpu),
       ("system_disk_usage_percent", (collectMetrics cfg src).disk),
       ("system_swap_usage_percent", (collectMetrics cfg src).swap),
       ("system_load_average_per_core", (collectMetrics cfg src).load),
       ("system_network_rx_mbps", (collectMetrics cfg src).network.1),
       ("system_network_tx_mbps", (collectMetrics cfg src).network.2)] ∧
    (∀ pin : PromMetricsIn, pin.cpu = none →
      ("system_cpu_usage_percent", (0 : ℚ)) ∈ (updatePrometheusMetrics cfg pin false).2) ∧
    (cfg.cpuMonitor = false →
      ("system_cpu_usage_percent", (0 : ℚ)) ∈ (runTick cfg src ⟨dbf, false, stf⟩).gaugeEvents) := by
  refine ⟨?_, ?_, ?_⟩
  · simp [runTick, updatePrometheusMetrics, toPromInput, jsOrZero, hp, he]
  · intro pin hcpu
    simp [updatePrometheusMetrics, jsOrZero, hp, he, hcpu]
  · intro hcm
    simp [runTick, updatePrometheusMetrics, toPromInput, jsOrZero, hp, he,
      collectMetrics, checkCpuUsage, hcm]

/-- Witness for C10: with CPU monitoring off and the registry enabled, the
CPU gauge is set to 0 on the tick. -/
theorem C10_witness :
    ("system_cpu_usage_percent", (0 : ℚ))
      ∈ (runTick cfgCpuOff srcNone ⟨false, false, false⟩).gaugeEvents :=
  (C10_prometheus_gauges cfgCpuOff srcNone false false rfl rfl).2.2 rfl

lemma sendLoop_attempts_ne_zero (o : ℕ → Bool) : (sendLoop o [0, 1, 2]).attempts ≠ 0 := by
  rw [sendLoop_spec]
  split_ifs <;> simp

lemma sendTelegramAlert_blocked (cfg : Config) (st : AlertState) (k : Kind) (v : String)
    (now : ℤ) (o : ℕ → Bool) (f : Bool)
    (h : now - st.lastAlertTimes k < cfg.checkInterval * 10) :
    sendTelegramAlert cfg st k v now o f =
      { ok := false, attempts := 0, sleeps := 0, records := [], counterInc := false,
        state := st } := by
  simp [sendTelegramAlert, h]

/-- C2: a dispatch makes at least one delivery attempt exactly when now
minus the last successful send time of the kind is at least
checkInterval * 10; and with checkInterval = 60, a second breach of the same
kind less than 600 seconds after a first successfully sent one is suppressed
by the rate limiter, returning false with zero attempts. -/
theorem C2_rate_limiter (cfg : Config) (st : AlertState) (k : Kind) (v v2 : String)
    (t1 t2 : ℤ) (o1 o2 : ℕ → Bool) (f2 : Bool)
    (hint : cfg.checkInterval = 60)
    (ho : o1 0 = true)
    (hgate : cfg.checkInterval * 10 ≤ t1 - st.lastAlertTimes k)
    (hclose : t2 - t1 < 600) :
    (∀ (st2 : AlertState) (now : ℤ) (o : ℕ → Bool) (w : String),
        ((sendTelegramAlert cfg st2 k w now o false).attempts ≠ 0 ↔
          cfg.checkInterval * 10 ≤ now - st2.lastAlertTimes k)) ∧
    (sendTelegramAlert cfg (sendTelegramAlert cfg st k v t1 o1 false).state k v2 t2 o2 f2).ok
      = false ∧
    (sendTelegramAlert cfg (sendTelegramAlert cfg st k v t1 o1 false).state k v2 t2 o2 f2).attempts
      = 0 := by
  have hnot : ¬ (t1 - st.lastAlertTimes k < cfg.checkInterval * 10) := not_lt.mpr hgate
  have hsucc : (sendLoop o1 [0, 1, 2]).success = true := by
    rw [sendLoop_spec]
    simp [ho]
  have hstate : (sendTelegramAlert cfg st k v t1 o1 false).state.lastAlertTimes k = t1 := by
    simp [sendTelegramAlert, hnot, hsucc]
  have hblock :
      t2 - (sendTelegramAlert cfg st k v t1 o1 false).state.lastAlertTimes k
        < cfg.checkInterval * 10 := by
    rw [hstate, hint]
    exact lt_of_lt_of_le hclose (by norm_num)
  refine ⟨?_, ?_, ?_⟩
  · intro st2 now o w
    by_cases hg : now - st2.lastAlertTimes k < cfg.checkInterval * 10
    · simp [sendTelegramAlert, hg]
    · have hle := not_lt.mp hg
      simp only [sendTelegramAlert, if_neg hg, Bool.false_eq_true, if_false]
      split_ifs <;> simp [sendLoop_attempts_ne_zero o, hle]
  · rw [sendTelegramAlert_blocked cfg _ k v2 t2 o2 f2 hblock]
  · rw [sendTelegramAlert_blocked cfg _ k v2 t2 o2 f2 hblock]

/-- Witness for C2: after a successful send at time 1000, a second dispatch
of the same kind at time 1300 is suppressed. -/
theorem C2_witness :
    (sendTelegramAlert cfgW
        (sendTelegramAlert cfgW initAlertState Kind.ram ("85%") 1000 (fun _ => true) false).state
        Kind.ram ("86%") 1300 (fun _ => true) false).ok = false ∧
    (sendTelegramAlert cfgW
        (sendTelegramAlert cfgW initAlertState Kind.ram ("85%") 1000 (fun _ => true) false).state
        Kind.ram ("86%") 1300 (fun _ => true) false).attempts = 0 := by
  have h := C2_rate_limiter cfgW initAlertState Kind.ram ("85%") ("86%") 1000 1300
    (fun _ => true) (fun _ => true) false rfl rfl (by decide) (by decide)
  exact ⟨h.2.1, h.2.2⟩

/-- C3: a dispatch that passes the rate limiter and whose three delivery
attempts all fail offers exactly one failed AlertRecord to the persistence
collaborator (present and enabled), returns false, makes exactly 3 attempts,
and leaves lastAlertTimes unchanged, so the next tick is not throttled by
this failed dispatch. -/
theorem C3_failed_dispatch (cfg : Config) (st : AlertState) (k : Kind) (v : String)
    (now : ℤ) (o : ℕ → Bool)
    (hgate : cfg.checkInterval * 10 ≤ now - st.lastAlertTimes k)
    (h0 : o 0 = false) (h1 : o 1 = false) (h2 : o 2 = false)
    (hdbp : cfg.dbPresent = true) (hdbe : cfg.databaseEnabled = true) :
    (sendTelegramAlert cfg st k v now o false).records = [⟨k, v, false⟩] ∧
    (sendTelegramAlert cfg st k v now o false).ok = false ∧
    (sendTelegramAlert cfg st k v now o false).state = st ∧
    (sendTelegramAlert cfg st k v now o false).attempts = 3 := by
  have hnot : ¬ (now - st.lastAlertTimes k < cfg.checkInterval * 10) := not_lt.mpr hgate
  have hloop : sendLoop o [0, 1, 2] = ⟨false, 3, 3⟩ := by
    rw [sendLoop_spec]
    simp [h0, h1, h2]
  simp [sendTelegramAlert, hnot, hloop, hdbp, hdbe]

/-- Witness for C3: a concrete all-failing dispatch. -/
theorem C3_witness :
    (sendTelegramAlert cfgW initAlertState Kind.ram ("85%") 1000 (fun _ => false) false).records
      = [⟨Kind.ram, ("85%"), false⟩] ∧
    (sendTelegramAlert cfgW initAlertState Kind.ram ("85%") 1000 (fun _ => false) false).ok
      = false ∧
    (sendTelegramAlert cfgW initAlertState Kind.ram ("85%") 1000 (fun _ => false) false).state
      = initAlertState ∧
    (sendTelegramAlert cfgW initAlertState Kind.ram ("85%") 1000 (fun _ => false) false).attempts
      = 3 :=
  C3_failed_dispatch cfgW initAlertState Kind.ram ("85%") 1000 (fun _ => false)
    (by decide) rfl rfl rfl rfl rfl

/-- C4: a dispatch that passes the rate limiter makes at most 3 delivery
attempts; it returns true exactly when some of the first three attempts
succeeds; a success performs one 2 second wait per preceding failed attempt
(so the waits sit between consecutive attempts) and sets lastAlertTimes of
the kind to the time sampled at the start of the dispatch; and the first
success stops the loop, so success on attempt 1, 2 or 3 yields exactly 1, 2
or 3 attempts. -/
theorem C4_retry_loop (cfg : Config) (st : AlertState) (k : Kind) (v : String)
    (now : ℤ) (o : ℕ → Bool)
    (hgate : cfg.checkInterval * 10 ≤ now - st.lastAlertTimes k) :
    (sendTelegramAlert cfg st k v now o false).attempts ≤ 3 ∧
    (sendTelegramAlert cfg st k v now o false).ok = (o 0 || o 1 || o 2) ∧
    ((sendTelegramAlert cfg st k v now o false).ok = true →
      (sendTelegramAlert cfg st k v now o false).state.lastAlertTimes k = now ∧
      (sendTelegramAlert cfg st k v now o false).sleeps + 1
        = (sendTelegramAlert cfg st k v now o false).attempts) ∧
    (o 0 = true → (sendTelegramAlert cfg st k v now o false).attempts = 1) ∧
    (o 0 = false → o 1 = true → (sendTelegramAlert cfg st k v now o false).attempts = 2) ∧
    (o 0 = false → o 1 = false → o 2 = true →
      (sendTelegramAlert cfg st k v now o false).attempts = 3) := by
  have hnot : ¬ (now - st.lastAlertTimes k < cfg.checkInterval * 10) := not_lt.mpr hgate
  cases h0 : o 0 <;> cases h1 : o 1 <;> cases h2 : o 2 <;>
    simp [sendTelegramAlert, hnot, sendLoop_spec, h0, h1, h2]

/-- Witness for C4: a dispatch succeeding on the second attempt makes
exactly 2 attempts, returns true and stamps lastAlertTimes. -/
theorem C4_witness :
    (sendTelegramAlert cfgW initAlertState Kind.cpu ("95%") 1000
        (fun n => decide (n = 1)) false).attempts = 2 ∧
    (sendTelegramAlert cfgW initAlertState Kind.cpu ("95%") 1000
        (fun n => decide (n = 1)) false).ok = true ∧
    (sendTelegramAlert cfgW initAlertState Kind.cpu ("95%") 1000
        (fun n => decide (n = 1)) false).state.lastAlertTimes Kind.cpu = 1000 := by
  have h := C4_retry_loop cfgW initAlertState Kind.cpu ("95%") 1000
    (fun n => decide (n = 1)) (by decide)
  refine ⟨h.2.2.2.2.1 rfl rfl, ?_, ?_⟩
  · rw [h.2.1]
    decide
  · exact (h.2.2.1 (by rw [h.2.1]; decide)).1

/-- A memory sample whose four values are nonnegative. -/
def MemSample.Sane (m : MemSample) : Prop :=
  0 ≤ m.used ∧ 0 ≤ m.total ∧ 0 ≤ m.swapused ∧ 0 ≤ m.swaptotal

/-- A source behaviour is sane when every value it does deliver is
nonnegative and the second network sample has counters at or above the
first (no counter reset between the two samples). -/
def SourceState.Sane (s : SourceState) : Prop :=
  (∀ m, s.memRam = some m → m.Sane) ∧
  (∀ m, s.memSwap = some m → m.Sane) ∧
  (∀ q, s.cpuLoad = some q → 0 ≤ q) ∧
  (∀ q, s.diskUse = some q → 0 ≤ q) ∧
  (∀ p, s.loadAvg = some p → 0 ≤ p.1) ∧
  (∀ p : NetSample × NetSample, s.net = some p →
    p.1.rx_bytes ≤ p.2.rx_bytes ∧ p.1.tx_bytes ≤ p.2.tx_bytes)

lemma jsRound_nonneg {q : ℚ} (h : 0 ≤ q) : 0 ≤ jsRound q := by
  unfold jsRound
  have hz : (0 : ℤ) ≤ ⌊q + 1/2⌋ := Int.le_floor.mpr (by push_cast; linarith)
  exact_mod_cast hz

lemma checkRamUsage_nonneg (src : Option MemSample)
    (h : ∀ m, src = some m → m.Sane) : 0 ≤ checkRamUsage src := by
  cases hs : src with
  | none => simp [checkRamUsage]
  | some m =>
    have hm := h m hs
    exact jsRound_nonneg (mul_nonneg (div_nonneg hm.1 hm.2.1) (by norm_num))

lemma checkCpuUsage_nonneg (cfg : Config) (src : Option ℚ)
    (h : ∀ q, src = some q → 0 ≤ q) : 0 ≤ checkCpuUsage cfg src := by
  unfold checkCpuUsage
  split
  · exact le_refl 0
  · cases hs : src with
    | none => exact le_refl 0
    | some q => exact jsRound_nonneg (h q hs)

lemma checkDiskUsage_nonneg (cfg : Config) (src : Option ℚ)
    (h : ∀ q, src = some q → 0 ≤ q) : 0 ≤ checkDiskUsage cfg src := by
  unfold checkDiskUsage
  split
  · exact le_refl 0
  · cases hs : src with
    | none => exact le_refl 0
    | some q => exact jsRound_nonneg (h q hs)

lemma checkSwapUsage_nonneg (cfg : Config) (src : Option MemSample)
    (h : ∀ m, src = some m → m.Sane) : 0 ≤ checkSwapUsage cfg src := by
  unfold checkSwapUsage
  split
  · exact le_refl 0
  · cases hs : src with
    | none => exact le_refl 0
    | some m =>
      have hm := h m hs
      by_cases hz : m.swaptotal = 0
      · simp [hz]
      · simp only [if_neg hz]
        exact jsRound_nonneg (mul_nonneg (div_nonneg hm.2.2.1 hm.2.2.2) (by norm_num))

lemma checkLoadAverage_nonneg (cfg : Config) (src : Option (ℚ × ℕ))
    (h : ∀ p, src = some p → 0 ≤ p.1) : 0 ≤ checkLoadAverage cfg src := by
  unfold checkLoadAverage
  split
  · exact le_refl 0
  · cases hs : src with
    | none => exact le_refl 0
    | some p =>
      exact jsRound_nonneg
        (mul_nonneg (div_nonneg (h p hs) (Nat.cast_nonneg p.2)) (by norm_num))

lemma checkNetworkUsage_nonneg (cfg : Config) (src : Option (NetSample × NetSample))
    (h : ∀ p : NetSample × NetSample, src = some p →
      p.1.rx_bytes ≤ p.2.rx_bytes ∧ p.1.tx_bytes ≤ p.2.tx_bytes) :
    0 ≤ (checkNetworkUsage cfg src).1 ∧ 0 ≤ (checkNetworkUsage cfg src).2 := by
  unfold checkNetworkUsage
  split
  · simp
  · cases hs : src with
    | none => simp
    | some p =>
      have hp := h p hs
      constructor
      · exact div_nonneg (div_nonneg (mul_nonneg (sub_nonneg.mpr hp.1) (by norm_num))
          (by norm_num)) (by norm_num)
      · exact div_nonneg (div_nonneg (mul_nonneg (sub_nonneg.mpr hp.2) (by norm_num))
          (by norm_num)) (by norm_num)

/-- The amended reader contract: every reader absorbs a throw of its
underlying call and returns the neutral reading, a disabled reader returns
the neutral reading for any source behaviour, the snapshot always carries
all six keys, and under a sane source every reading of the snapshot is
nonnegative. -/
def ReadersSpec (cfg : Config) (src : SourceState) : Prop :=
  checkRamUsage none = 0 ∧
  checkCpuUsage cfg none = 0 ∧
  checkDiskUsage cfg none = 0 ∧
  checkSwapUsage cfg none = 0 ∧
  checkLoadAverage cfg none = 0 ∧
  checkNetworkUsage cfg none = (0, 0) ∧
  (cfg.cpuMonitor = false → checkCpuUsage cfg src.cpuLoad = 0) ∧
  (cfg.diskMonitor = false → checkDiskUsage cfg src.diskUse = 0) ∧
  (cfg.swapMonitor = false → checkSwapUsage cfg src.memSwap = 0) ∧
  (cfg.loadMonitor = false → checkLoadAverage cfg src.loadAvg = 0) ∧
  (cfg.networkMonitor = false → checkNetworkUsage cfg src.net = (0, 0)) ∧
  collectMetrics cfg src =
    { ram := checkRamUsage src.memRam
      cpu := checkCpuUsage cfg src.cpuLoad
      disk := checkDiskUsage cfg src.diskUse
      swap := checkSwapUsage cfg src.memSwap
      load := checkLoadAverage cfg src.loadAvg
      network := checkNetworkUsage cfg src.net } ∧
  (0 ≤ (collectMetrics cfg src).ram ∧ 0 ≤ (collectMetrics cfg src).cpu ∧
   0 ≤ (collectMetrics cfg src).disk ∧ 0 ≤ (collectMetrics cfg src).swap ∧
   0 ≤ (collectMetrics cfg src).load ∧ 0 ≤ (collectMetrics cfg src).network.1 ∧
   0 ≤ (collectMetrics cfg src).network.2)

/-- C5 fails as stated: over all behaviours of the underlying source, the
readings are not always nonnegative.  With network monitoring enabled and
the rx counter going from 1024 down to 0 between the two samples (a counter
reset), the computed Rx reading is negative. -/
theorem C5_counterexample :
    (checkNetworkUsage cfgW (some (⟨1024, 0⟩, ⟨0, 0⟩))).1 < 0 := by
  norm_num [checkNetworkUsage, cfgW]

/-- C5 amended: every reader absorbs a throw of its underlying call (none)
and returns 0, or the pair (0, 0) for the network reader; a disabled reader
returns 0 for every source behaviour; the snapshot always carries all six
keys; and every reading is nonnegative provided the source is sane, that is
it delivers nonnegative values and non-decreasing network counters. -/
theorem C5_readers_total (cfg : Config) (src : SourceState)
    (hs : SourceState.Sane src) : ReadersSpec cfg src := by
  obtain ⟨hmr, hms, hcl, hdu, hla, hnet⟩ := hs
  refine ⟨rfl, ?_, ?_, ?_, ?_, ?_, ?_, ?_, ?_, ?_, ?_, rfl, ?_⟩
  · unfold checkCpuUsage
    split <;> rfl
  · unfold checkDiskUsage
    split <;> rfl
  · unfold checkSwapUsage
    split <;> rfl
  · unfold checkLoadAverage
    split <;> rfl
  · unfold checkNetworkUsage
    split <;> rfl
  · intro h
    simp [checkCpuUsage, h]
  · intro h
    simp [checkDiskUsage, h]
  · intro h
    simp [checkSwapUsage, h]
  · intro h
    simp [checkLoadAverage, h]
  · intro h
    simp [checkNetworkUsage, h]
  · exact ⟨checkRamUsage_nonneg src.memRam hmr,
      checkCpuUsage_nonneg cfg src.cpuLoad hcl,
      checkDiskUsage_nonneg cfg src.diskUse hdu,
      checkSwapUsage_nonneg cfg src.memSwap hms,
      checkLoadAverage_nonneg cfg src.loadAvg hla,
      (checkNetworkUsage_nonneg cfg src.net hnet).1,
      (checkNetworkUsage_nonneg cfg src.net hnet).2⟩

/-- Witness for C5 at the tick in which every underlying call throws. -/
theorem C5_witness : SourceState.Sane srcNone ∧ ReadersSpec cfgW srcNone := by
  have hs : SourceState.Sane srcNone := by
    refine ⟨?_, ?_, ?_, ?_, ?_, ?_⟩ <;> intro x hx <;> simp [srcNone] at hx
  exact ⟨hs, C5_readers_total cfgW srcNone hs⟩

/-- A metrics row whose text timestamp lies far in the future of the rows
the monitor would normally append. -/
def rowFuture : MetricRow :=
  ⟨1, ("2099-01-01 00:00:00"), ("other-host"), ("10.0.0.2"), 1, 1, 1, 1, 1, 1, 1, none⟩

/-- A metrics table already holding the future-stamped row. -/
def tblFuture : MetricsTable := ⟨[rowFuture], 2⟩

/-- C8 fails as stated: it quantifies over every store state, but when the
store already holds a row whose text timestamp sorts after the appended
row's, ORDER BY timestamp DESC LIMIT 1 returns the old row, not the
appended one (which differs from it in every data field here). -/
theorem C8_counterexample :
    getRecentMetrics
        (storeMetricsRow tblFuture ("2024-05-01 00:00:00") ("my-host") ("10.0.0.1")
          85 10 20 0 5 1 1 none) 1
      = [rowFuture] ∧
    rowFuture.hostname ≠ ("my-host") := by
  constructor
  · decide
  · decide

/-- C8 amended: a MetricRecord appended via storeMetrics whose timestamp
sorts strictly after every timestamp already in the store is returned first
by getRecentMetrics 1, equal in all fields to the record appended, with the
identifier assigned by the storage; and for every limit n, getRecentMetrics
and getRecentAlerts return at most n rows ordered newest-first by
timestamp. -/
theorem C8_roundtrip :
    (∀ (t : MetricsTable) (ts hn ip : String) (ram cpu disk swap load rx tx : ℚ)
        (extra : Option String),
      (∀ r ∈ t.rows, r.timestamp.data < ts.data) →
      getRecentMetrics (storeMetricsRow t ts hn ip ram cpu disk swap load rx tx extra) 1 =
        [⟨t.nextId, ts, hn, ip, ram, cpu, disk, swap, load, rx, tx, extra⟩]) ∧
    (∀ (t : MetricsTable) (n : ℕ),
      (getRecentMetrics t n).length ≤ n ∧
      (getRecentMetrics t n).Pairwise (fun a b => b.timestamp.data ≤ a.timestamp.data)) ∧
    (∀ (t : AlertsTable) (n : ℕ),
      (getRecentAlerts t n).length ≤ n ∧
      (getRecentAlerts t n).Pairwise (fun a b => b.timestamp.data ≤ a.timestamp.data)) := by
  refine ⟨?_, ?_, ?_⟩
  · intro t ts hn ip ram cpu disk swap load rx tx extra h
    unfold getRecentMetrics storeMetricsRow
    rw [sortDescBy_append_singleton (fun r => r.timestamp.data) _ t.rows h]
    simp
  · intro t n
    exact ⟨List.length_take_le n _,
      List.Pairwise.sublist (List.take_sublist n _) (pairwise_sortDescBy _ _)⟩
  · intro t n
    exact ⟨List.length_take_le n _,
      List.Pairwise.sublist (List.take_sublist n _) (pairwise_sortDescBy _ _)⟩

/-- Witness for C8: appending to the empty store and reading back one row
returns the appended record with the storage-assigned identifier. -/
theorem C8_witness :
    getRecentMetrics
        (storeMetricsRow ⟨[], 1⟩ ("2024-05-01 00:00:00") ("my-host") ("10.0.0.1")
          85 10 20 0 5 1 1 none) 1
      = [⟨1, ("2024-05-01 00:00:00"), ("my-host"), ("10.0.0.1"), 85, 10, 20, 0, 5, 1, 1, none⟩] :=
  C8_roundtrip.1 ⟨[], 1⟩ ("2024-05-01 00:00:00") ("my-host") ("10.0.0.1")
    85 10 20 0 5 1 1 none (by simp)

end MemMonitor
